import Mathlib

/-!
Verification of the partition-planning controller
(src/subiquity/controllers/filesystem.py) and the WSL configuration base
model (src/system_setup/models/wslconfbase.py).

Sizes are modelled as `Int` (Python integers; the handler can drive a
requested size negative by subtraction).  The disk model object
(`FilesystemModel` and its disk `add_partition` method) is not part of
the repository snapshot, so it is modelled from the spec; the controller
code itself is embedded from the source.
-/

namespace Subiquity

/-- A partition record as created through the disk model: partition
number, size in bytes, optional filesystem type, optional mount point
and optional flag (boot role). -/
structure Partition where
  partnum : Int
  size : Int
  fstype : Option String
  mountpoint : Option String
  flag : Option String
deriving Repr, DecidableEq

/-- A disk snapshot as seen by the controller: partition-table style
(`current_disk.parttype`), free space in bytes
(`current_disk.freespace`) and the ordered list of existing partitions
(`current_disk.disk.partitions`). -/
structure Disk where
  parttype : String
  freespace : Int
  partitions : List Partition
deriving Repr, DecidableEq

/-- Error raised by the disk model when a partition cannot be added. -/
inductive PlanError where
  | InsufficientSpace
deriving Repr, DecidableEq

/-- Modelled from the spec: the disk-model method `add_partition`, whose
source is missing from the repository snapshot (only its caller in
src/subiquity/controllers/filesystem.py is present).  Per the spec, the
requested size must be nonnegative and at most the current free space,
violation being an InsufficientSpace planning error; on success the
partition is appended, free space shrinks by the size, and the size
actually added is returned. -/
def Disk.add_partition (d : Disk) (partnum : Int) (size : Int)
    (fstype : Option String) (mountpoint : Option String)
    (flag : Option String) : Except PlanError (Disk × Int) :=
  if size < 0 ∨ d.freespace < size then
    Except.error PlanError.InsufficientSpace
  else
    Except.ok
      ({ parttype := d.parttype,
         freespace := d.freespace - size,
         partitions := d.partitions ++
           [{ partnum := partnum, size := size, fstype := fstype,
              mountpoint := mountpoint, flag := flag }] },
       size)

/-- The user request dictionary passed to `add_disk_partition_handler`
(keys partnum, bytes, fstype, mountpoint). -/
structure PartSpec where
  partnum : Int
  bytes : Int
  fstype : Option String
  mountpoint : Option String
deriving Repr, DecidableEq

/-- UI signals emitted by `add_disk_partition_handler`. -/
inductive Signal where
  | filesystem_add_disk_partition
  | filesystem_show_disk_partition
deriving Repr, DecidableEq

/-- Observable outcome of `add_disk_partition_handler`: the disk model
after the call, the caller request dictionary after the call (the
handler mutates it in place), the exception caught by the broad except
clause (none on success) and the signals emitted, in order. -/
structure HandlerResult where
  disk : Disk
  spec : PartSpec
  caught : Option PlanError
  signals : List Signal
deriving Repr, DecidableEq

/-- BIOS_GRUB_SIZE_BYTES = 2 * 1024 * 1024 (2MiB,
src/subiquity/controllers/filesystem.py line 35). -/
def BIOS_GRUB_SIZE_BYTES : Int := 2 * 1024 * 1024

/-- UEFI_GRUB_SIZE_BYTES = 512 * 1024 * 1024 (512MiB EFI partition,
src/subiquity/controllers/filesystem.py line 36). -/
def UEFI_GRUB_SIZE_BYTES : Int := 512 * 1024 * 1024

/-- Second half of the try block of `add_disk_partition_handler`
(lines 160-178): add the user partition, omitting the mount point when
the requested fstype is swap; an exception is caught by the except
clause, which logs and emits the add-disk-partition signal; control
then falls through to the final show-disk-partition signal in every
case (there is no return in the except clause). -/
def add_user_partition (disk : Disk) (spec : PartSpec) : HandlerResult :=
  let res :=
    if spec.fstype == some "swap" then
      disk.add_partition spec.partnum spec.bytes spec.fstype none none
    else
      disk.add_partition spec.partnum spec.bytes spec.fstype spec.mountpoint none
  match res with
  | Except.error e =>
      { disk := disk, spec := spec, caught := some e,
        signals := [Signal.filesystem_add_disk_partition,
                    Signal.filesystem_show_disk_partition] }
  | Except.ok (d2, _) =>
      { disk := d2, spec := spec, caught := none,
        signals := [Signal.filesystem_show_disk_partition] }

/-- Shallow embedding of `add_disk_partition_handler`
(src/subiquity/controllers/filesystem.py lines 122-178).
`system_bootable` stands for `self.model.bootable()` and `is_uefi` for
`self.is_uefi()`, both external to the planning logic.  When the system
is not bootable, the table style is gpt and the disk has no partitions,
a first partition is added: under UEFI a 512MiB fat32 partition mounted
at /boot/efi with flag bios_grub (the flag passed at line 141), else a
2MiB partition with no fstype and flag bios_grub; then the request
dictionary is adjusted in place (bytes reduced by the size added,
partnum set to 2) and the user partition is added. -/
def add_disk_partition_handler (system_bootable : Bool) (is_uefi : Bool)
    (disk : Disk) (spec : PartSpec) : HandlerResult :=
  if !system_bootable && disk.parttype == "gpt" && disk.partitions.length == 0 then
    let bootRes :=
      if is_uefi then
        disk.add_partition 1 UEFI_GRUB_SIZE_BYTES (some "fat32")
          (some "/boot/efi") (some "bios_grub")
      else
        disk.add_partition 1 BIOS_GRUB_SIZE_BYTES none none (some "bios_grub")
    match bootRes with
    | Except.error e =>
        { disk := disk, spec := spec, caught := some e,
          signals := [Signal.filesystem_add_disk_partition,
                      Signal.filesystem_show_disk_partition] }
    | Except.ok (d1, size_added) =>
        add_user_partition d1
          { spec with bytes := spec.bytes - size_added, partnum := 2 }
  else
    add_user_partition disk spec

/-- The boot partition the handler injects: the record passed to
`add_partition` at lines 139-143 (UEFI) or 146-150 (legacy). -/
def injected_boot (is_uefi : Bool) : Partition :=
  if is_uefi then
    { partnum := 1, size := UEFI_GRUB_SIZE_BYTES, fstype := some "fat32",
      mountpoint := some "/boot/efi", flag := some "bios_grub" }
  else
    { partnum := 1, size := BIOS_GRUB_SIZE_BYTES, fstype := none,
      mountpoint := none, flag := some "bios_grub" }

/-- Outcome of one call to an external curtin config writer. -/
inductive WriteOutcome where
  | ok
  | permissionDenied
deriving Repr, DecidableEq

/-- UI signals emitted by `filesystem_handler`; the error signal carries
the name given as argument to the filesystem-error signal. -/
inductive FsSignal where
  | network_show
  | filesystem_error (name : String)
  | identity_show
deriving Repr, DecidableEq

/-- Observable outcome of `filesystem_handler`: the signals emitted in
order, the names of the writes attempted in order, and the
exception log lines. -/
structure FsHandlerResult where
  signals : List FsSignal
  attempted : List String
  logs : List String
deriving Repr, DecidableEq

/-- Shallow embedding of `filesystem_handler`
(src/subiquity/controllers/filesystem.py lines 68-91).  Modelled from
the spec where the writers are concerned: `curtin_write_storage_actions`
and `curtin_write_preserved_actions` are external collaborators that may
fail with a permission error, so their outcomes are inputs here.  A
PermissionError from a write is logged (log.exception), reported through
a filesystem-error signal naming the failed write, and the handler
returns immediately; on success of both writes the identity-show signal
is emitted. -/
def filesystem_handler (reset : Bool) (actionsPresent : Bool)
    (storageWrite : WriteOutcome) (preservedWrite : WriteOutcome) :
    FsHandlerResult :=
  let pre : List FsSignal :=
    if !actionsPresent && !reset then [FsSignal.network_show] else []
  match storageWrite with
  | WriteOutcome.permissionDenied =>
      { signals := pre ++ [FsSignal.filesystem_error "curtin_write_storage_actions"],
        attempted := ["curtin_write_storage_actions"],
        logs := ["Failed to write storage actions"] }
  | WriteOutcome.ok =>
      match preservedWrite with
      | WriteOutcome.permissionDenied =>
          { signals := pre ++ [FsSignal.filesystem_error "curtin_write_preserved_actions"],
            attempted := ["curtin_write_storage_actions",
                          "curtin_write_preserved_actions"],
            logs := ["Failed to write preserved actions"] }
      | WriteOutcome.ok =>
          { signals := pre ++ [FsSignal.identity_show],
            attempted := ["curtin_write_storage_actions",
                          "curtin_write_preserved_actions"],
            logs := [] }

/-- Index of the first occurrence of `x` in `l` (Python list.index,
which raises ValueError when absent, hence Option). -/
def index_of (l : List String) (x : String) : Option Nat :=
  match l with
  | [] => none
  | y :: ys =>
      if y == x then some 0
      else Option.map (fun n => n + 1) (index_of ys x)

/-- Failure of the disk cursor: the current device is not in the list. -/
inductive CursorError where
  | NotFound
deriving Repr, DecidableEq

/-- Shallow embedding of `show_disk_information_next` (lines 229-235):
the device whose information is shown next.  `available` stands for
`self.model.get_available_disk_names()`; a missing current device makes
list.index raise, modelled as NotFound.  The second NotFound branch is
unreachable: (idx + 1) % length is always in range once idx is found. -/
def show_disk_information_next (available : List String) (curr : String) :
    Except CursorError String :=
  match index_of available curr with
  | none => Except.error CursorError.NotFound
  | some idx =>
      match available[(idx + 1) % available.length]? with
      | some d => Except.ok d
      | none => Except.error CursorError.NotFound

/-- Shallow embedding of `show_disk_information_prev` (lines 237-243).
Python computes (idx - 1) % length over mathematical integers, yielding
a nonnegative index; `Int.emod` has the same convention. -/
def show_disk_information_prev (available : List String) (curr : String) :
    Except CursorError String :=
  match index_of available curr with
  | none => Except.error CursorError.NotFound
  | some idx =>
      match available[(((idx : Int) - 1) % (available.length : Int)).toNat]? with
      | some d => Except.ok d
      | none => Except.error CursorError.NotFound

/-- The attrs value object WSLConfigurationBase
(src/system_setup/models/wslconfbase.py lines 22-27). -/
structure WSLConfigurationBase where
  automount_root : String
  automount_options : String
  network_generatehosts : Bool
  network_generateresolvconf : Bool
deriving Repr, DecidableEq

/-- State of WSLConfigurationBaseModel: the single stored attribute
`_wslconfbase`. -/
structure WSLConfigurationBaseModel where
  _wslconfbase : Option WSLConfigurationBase
deriving Repr, DecidableEq

/-- `WSLConfigurationBaseModel.__init__` (line 34-35): the stored
configuration starts as None. -/
def WSLConfigurationBaseModel.init : WSLConfigurationBaseModel :=
  { _wslconfbase := none }

/-- `WSLConfigurationBaseModel.apply_settings` (lines 38-44): copy the
four fields of `result` into a dict, build a fresh WSLConfigurationBase
from it and store it. -/
def WSLConfigurationBaseModel.apply_settings (m : WSLConfigurationBaseModel)
    (result : WSLConfigurationBase) : WSLConfigurationBaseModel :=
  { _wslconfbase :=
      some { automount_root := result.automount_root,
             automount_options := result.automount_options,
             network_generatehosts := result.network_generatehosts,
             network_generateresolvconf := result.network_generateresolvconf } }

/-- The `wslconfbase` property (lines 46-48). -/
def WSLConfigurationBaseModel.wslconfbase (m : WSLConfigurationBaseModel) :
    Option WSLConfigurationBase :=
  m._wslconfbase

/-- Size of the boot partition the handler would inject for the given
firmware mode. -/
def boot_size (is_uefi : Bool) : Int :=
  if is_uefi then UEFI_GRUB_SIZE_BYTES else BIOS_GRUB_SIZE_BYTES

lemma boot_size_nonneg (u : Bool) : 0 ≤ boot_size u := by
  cases u <;> norm_num [boot_size, UEFI_GRUB_SIZE_BYTES, BIOS_GRUB_SIZE_BYTES]

lemma injected_boot_size (u : Bool) : (injected_boot u).size = boot_size u := by
  cases u <;> rfl

lemma add_partition_ok (d : Disk) (pn sz : Int) (ft mp fl : Option String)
    (h0 : 0 ≤ sz) (hfit : sz ≤ d.freespace) :
    d.add_partition pn sz ft mp fl =
      Except.ok
        ({ parttype := d.parttype, freespace := d.freespace - sz,
           partitions := d.partitions ++
             [{ partnum := pn, size := sz, fstype := ft,
                mountpoint := mp, flag := fl }] }, sz) := by
  unfold Disk.add_partition
  rw [if_neg (by omega : ¬(sz < 0 ∨ d.freespace < sz))]

lemma add_partition_err (d : Disk) (pn sz : Int) (ft mp fl : Option String)
    (h : sz < 0 ∨ d.freespace < sz) :
    d.add_partition pn sz ft mp fl = Except.error PlanError.InsufficientSpace := by
  unfold Disk.add_partition
  rw [if_pos h]

lemma add_user_partition_ok (d : Disk) (s : PartSpec)
    (h0 : 0 ≤ s.bytes) (hfit : s.bytes ≤ d.freespace) :
    add_user_partition d s =
      { disk := { parttype := d.parttype, freespace := d.freespace - s.bytes,
                  partitions := d.partitions ++
                    [{ partnum := s.partnum, size := s.bytes, fstype := s.fstype,
                       mountpoint :=
                         if s.fstype == some "swap" then none else s.mountpoint,
                       flag := none }] },
        spec := s, caught := none,
        signals := [Signal.filesystem_show_disk_partition] } := by
  unfold add_user_partition
  cases hsw : (s.fstype == some "swap") with
  | false =>
      rw [add_partition_ok d s.partnum s.bytes s.fstype s.mountpoint none h0 hfit]
      rfl
  | true =>
      rw [add_partition_ok d s.partnum s.bytes s.fstype none none h0 hfit]
      rfl

lemma add_user_partition_err (d : Disk) (s : PartSpec)
    (h : s.bytes < 0 ∨ d.freespace < s.bytes) :
    add_user_partition d s =
      { disk := d, spec := s, caught := some PlanError.InsufficientSpace,
        signals := [Signal.filesystem_add_disk_partition,
                    Signal.filesystem_show_disk_partition] } := by
  unfold add_user_partition
  cases hsw : (s.fstype == some "swap") with
  | false =>
      rw [add_partition_err d s.partnum s.bytes s.fstype s.mountpoint none h]
      rfl
  | true =>
      rw [add_partition_err d s.partnum s.bytes s.fstype none none h]
      rfl

lemma handler_no_inject (sb uefi : Bool) (d : Disk) (s : PartSpec)
    (h : (!sb && d.parttype == "gpt" && d.partitions.length == 0) = false) :
    add_disk_partition_handler sb uefi d s = add_user_partition d s := by
  unfold add_disk_partition_handler
  rw [if_neg (by simp [h])]

lemma handler_inject (uefi : Bool) (d : Disk) (s : PartSpec)
    (hgpt : d.parttype = "gpt") (hempty : d.partitions = [])
    (hfree : boot_size uefi ≤ d.freespace) :
    add_disk_partition_handler false uefi d s =
      add_user_partition
        { parttype := d.parttype, freespace := d.freespace - boot_size uefi,
          partitions := d.partitions ++ [injected_boot uefi] }
        { s with bytes := s.bytes - boot_size uefi, partnum := 2 } := by
  unfold add_disk_partition_handler
  rw [if_pos (by simp [hgpt, hempty])]
  cases uefi with
  | true =>
      rw [add_partition_ok d 1 UEFI_GRUB_SIZE_BYTES (some "fat32")
        (some "/boot/efi") (some "bios_grub")
        (by norm_num [UEFI_GRUB_SIZE_BYTES])
        (by simpa [boot_size] using hfree)]
      rfl
  | false =>
      rw [add_partition_ok d 1 BIOS_GRUB_SIZE_BYTES none none (some "bios_grub")
        (by norm_num [BIOS_GRUB_SIZE_BYTES])
        (by simpa [boot_size] using hfree)]
      rfl

lemma handler_boot_err (uefi : Bool) (d : Disk) (s : PartSpec)
    (hgpt : d.parttype = "gpt") (hempty : d.partitions = [])
    (hfree : d.freespace < boot_size uefi) :
    add_disk_partition_handler false uefi d s =
      { disk := d, spec := s, caught := some PlanError.InsufficientSpace,
        signals := [Signal.filesystem_add_disk_partition,
                    Signal.filesystem_show_disk_partition] } := by
  unfold add_disk_partition_handler
  rw [if_pos (by simp [hgpt, hempty])]
  cases uefi with
  | true =>
      rw [add_partition_err d 1 UEFI_GRUB_SIZE_BYTES (some "fat32")
        (some "/boot/efi") (some "bios_grub")
        (Or.inr (by simpa [boot_size] using hfree))]
      rfl
  | false =>
      rw [add_partition_err d 1 BIOS_GRUB_SIZE_BYTES none none (some "bios_grub")
        (Or.inr (by simpa [boot_size] using hfree))]
      rfl

lemma add_user_partition_spec (d0 : Disk) (s0 : PartSpec) :
    (add_user_partition d0 s0).spec = s0 := by
  unfold add_user_partition
  cases hsw : (s0.fstype == some "swap") with
  | true =>
      cases hres : d0.add_partition s0.partnum s0.bytes s0.fstype none none with
      | error e => simp [hsw, hres]
      | ok p => cases p with | mk d2 sz => simp [hsw, hres]
  | false =>
      cases hres : d0.add_partition s0.partnum s0.bytes s0.fstype s0.mountpoint none with
      | error e => simp [hsw, hres]
      | ok p => cases p with | mk d2 sz => simp [hsw, hres]

lemma add_user_partition_shape (d0 : Disk) (s0 : PartSpec) :
    (add_user_partition d0 s0).signals.getLast? =
      some Signal.filesystem_show_disk_partition ∧
    ((add_user_partition d0 s0).caught = none ∨
      ((add_user_partition d0 s0).signals =
          [Signal.filesystem_add_disk_partition,
           Signal.filesystem_show_disk_partition] ∧
        (add_user_partition d0 s0).disk = d0)) := by
  by_cases hu : (s0.bytes < 0 ∨ d0.freespace < s0.bytes)
  · rw [add_user_partition_err d0 s0 hu]
    exact ⟨rfl, Or.inr ⟨rfl, rfl⟩⟩
  · push_neg at hu
    rw [add_user_partition_ok d0 s0 hu.1 hu.2]
    exact ⟨rfl, Or.inl rfl⟩

/-- C1: for a GPT disk with zero partitions, system not yet bootable,
boot mode UEFI, the handler emits first a partition with number 1, size
512 MiB, filesystem fat32, mount point /boot/efi, and second the user
partition with number 2 and size bytes - 512 MiB; however the boot-role
flag the code passes for this EFI partition is bios_grub, not efi
(line 141), contradicting the intent documented by its own log line
and the claimed efi role.  Evaluation at a concrete such input. -/
theorem uefi_boot_partition_flag_bug :
    (add_disk_partition_handler false true
        { parttype := "gpt", freespace := 1073741824, partitions := [] }
        { partnum := 1, bytes := 629145600, fstype := some "ext4",
          mountpoint := some "/" }).disk.partitions =
      [{ partnum := 1, size := 536870912, fstype := some "fat32",
         mountpoint := some "/boot/efi", flag := some "bios_grub" },
       { partnum := 2, size := 92274688, fstype := some "ext4",
         mountpoint := some "/", flag := none }] ∧
    (add_disk_partition_handler false true
        { parttype := "gpt", freespace := 1073741824, partitions := [] }
        { partnum := 1, bytes := 629145600, fstype := some "ext4",
          mountpoint := some "/" }).disk.partitions.map Partition.flag ≠
      [some "efi", none] := by
  decide

/-- C3 counterexample: with a 4 MiB GPT disk, legacy mode, not yet
bootable, and a 5 MiB request, the boot-partition injection succeeds
and the user partition addition then raises; the caught exception
leaves the injected boot partition committed (the disk is mutated) and
the handler still emits the success-path show-disk-partition signal
after the error signal, refuting all-or-nothing rollback and refuting
that the handler does not continue on the success path. -/
theorem partial_mutation_on_failure_cex :
    (add_disk_partition_handler false false
        { parttype := "gpt", freespace := 4194304, partitions := [] }
        { partnum := 1, bytes := 5242880, fstype := some "ext4",
          mountpoint := some "/" }).caught = some PlanError.InsufficientSpace ∧
    (add_disk_partition_handler false false
        { parttype := "gpt", freespace := 4194304, partitions := [] }
        { partnum := 1, bytes := 5242880, fstype := some "ext4",
          mountpoint := some "/" }).disk ≠
      { parttype := "gpt", freespace := 4194304, partitions := [] } ∧
    (add_disk_partition_handler false false
        { parttype := "gpt", freespace := 4194304, partitions := [] }
        { partnum := 1, bytes := 5242880, fstype := some "ext4",
          mountpoint := some "/" }).disk.partitions.length = 1 ∧
    (add_disk_partition_handler false false
        { parttype := "gpt", freespace := 4194304, partitions := [] }
        { partnum := 1, bytes := 5242880, fstype := some "ext4",
          mountpoint := some "/" }).signals =
      [Signal.filesystem_add_disk_partition,
       Signal.filesystem_show_disk_partition] := by
  decide

/-- C4 counterexample: with a 600 MiB GPT disk, UEFI mode, not yet
bootable, and a 1000 MiB request, the adjusted request exceeds the free
space at planning time and planning fails with InsufficientSpace, but
the disk state is NOT unchanged: the injected 512 MiB boot partition
remains committed. -/
theorem insufficient_space_disk_changed_cex :
    (add_disk_partition_handler false true
        { parttype := "gpt", freespace := 629145600, partitions := [] }
        { partnum := 1, bytes := 1048576000, fstype := some "ext4",
          mountpoint := some "/" }).caught = some PlanError.InsufficientSpace ∧
    (add_disk_partition_handler false true
        { parttype := "gpt", freespace := 629145600, partitions := [] }
        { partnum := 1, bytes := 1048576000, fstype := some "ext4",
          mountpoint := some "/" }).disk ≠
      { parttype := "gpt", freespace := 629145600, partitions := [] } := by
  decide

/-- C10: the WSL configuration base model stores None immediately after
construction, and after apply_settings the stored record has exactly
the four fields of the argument; nothing else of the prior model state
is retained (the result of apply_settings does not depend on it). -/
theorem wslconfbase_model_correct (m : WSLConfigurationBaseModel)
    (r : WSLConfigurationBase) :
    WSLConfigurationBaseModel.init.wslconfbase = none ∧
    (m.apply_settings r).wslconfbase =
      some { automount_root := r.automount_root,
             automount_options := r.automount_options,
             network_generatehosts := r.network_generatehosts,
             network_generateresolvconf := r.network_generateresolvconf } ∧
    m.apply_settings r = WSLConfigurationBaseModel.init.apply_settings r :=
  ⟨rfl, rfl, rfl⟩

/-- C2: for every GPT disk with zero existing partitions, system not
yet bootable, legacy BIOS mode, and a request that fits after
adjustment, the handler emits first a partition with number 1, size
2 MiB, no filesystem, no mount point and flag bios_grub, and second the
user partition with number 2 and size equal to the requested bytes
minus 2 MiB. -/
theorem legacy_boot_plan (d : Disk) (s : PartSpec)
    (hgpt : d.parttype = "gpt") (hempty : d.partitions = [])
    (h0 : 0 ≤ s.bytes - BIOS_GRUB_SIZE_BYTES)
    (hfit : s.bytes ≤ d.freespace) :
    (add_disk_partition_handler false false d s).disk.partitions =
      [{ partnum := 1, size := BIOS_GRUB_SIZE_BYTES, fstype := none,
         mountpoint := none, flag := some "bios_grub" },
       { partnum := 2, size := s.bytes - BIOS_GRUB_SIZE_BYTES,
         fstype := s.fstype,
         mountpoint := if s.fstype == some "swap" then none else s.mountpoint,
         flag := none }] ∧
    (add_disk_partition_handler false false d s).caught = none := by
  have hb : boot_size false ≤ d.freespace := by
    show BIOS_GRUB_SIZE_BYTES ≤ d.freespace
    omega
  rw [handler_inject false d s hgpt hempty hb]
  rw [add_user_partition_ok
    { parttype := d.parttype, freespace := d.freespace - boot_size false,
      partitions := d.partitions ++ [injected_boot false] }
    { s with bytes := s.bytes - boot_size false, partnum := 2 }
    (show (0 : Int) ≤ s.bytes - BIOS_GRUB_SIZE_BYTES from h0)
    (show s.bytes - BIOS_GRUB_SIZE_BYTES ≤ d.freespace - BIOS_GRUB_SIZE_BYTES by omega)]
  refine ⟨?_, rfl⟩
  simp [hempty, injected_boot, boot_size]

/-- C2 witness: the legacy plan at a concrete input (10 MiB free, 8 MiB
requested). -/
theorem legacy_boot_plan_witness :
    (add_disk_partition_handler false false
        { parttype := "gpt", freespace := 10485760, partitions := [] }
        { partnum := 1, bytes := 8388608, fstype := some "ext4",
          mountpoint := some "/" }).disk.partitions =
      [{ partnum := 1, size := BIOS_GRUB_SIZE_BYTES, fstype := none,
         mountpoint := none, flag := some "bios_grub" },
       { partnum := 2, size := 8388608 - BIOS_GRUB_SIZE_BYTES,
         fstype := some "ext4",
         mountpoint :=
           if (some "ext4" : Option String) == some "swap" then none
           else some "/",
         flag := none }] ∧
    (add_disk_partition_handler false false
        { parttype := "gpt", freespace := 10485760, partitions := [] }
        { partnum := 1, bytes := 8388608, fstype := some "ext4",
          mountpoint := some "/" }).caught = none :=
  legacy_boot_plan
    { parttype := "gpt", freespace := 10485760, partitions := [] }
    { partnum := 1, bytes := 8388608, fstype := some "ext4",
      mountpoint := some "/" }
    rfl rfl (by decide) (by decide)

/-- C3 amended: every exception during planning is caught (the handler
always ends by emitting the success-path show-disk-partition signal);
when an exception was caught the handler emitted the entry-screen
add-disk-partition signal first, and the disk is either unchanged or —
when the boot partition had already been injected — retains exactly
that boot partition, so the operation is not all-or-nothing and the
handler continues onto the success path after the error. -/
theorem failure_path_behavior (sb uefi : Bool) (d : Disk) (s : PartSpec) :
    (add_disk_partition_handler sb uefi d s).signals.getLast? =
      some Signal.filesystem_show_disk_partition ∧
    ((add_disk_partition_handler sb uefi d s).caught = none ∨
      (add_disk_partition_handler sb uefi d s).signals =
        [Signal.filesystem_add_disk_partition,
         Signal.filesystem_show_disk_partition]) ∧
    ((add_disk_partition_handler sb uefi d s).caught = none ∨
      (add_disk_partition_handler sb uefi d s).disk = d ∨
      (add_disk_partition_handler sb uefi d s).disk.partitions =
        d.partitions ++ [injected_boot uefi]) := by
  cases hcb : (!sb && d.parttype == "gpt" && d.partitions.length == 0) with
  | false =>
      rw [handler_no_inject sb uefi d s hcb]
      obtain ⟨h1, h2⟩ := add_user_partition_shape d s
      refine ⟨h1, ?_, ?_⟩
      · rcases h2 with h | ⟨hsig, _⟩
        · exact Or.inl h
        · exact Or.inr hsig
      · rcases h2 with h | ⟨_, hdisk⟩
        · exact Or.inl h
        · exact Or.inr (Or.inl hdisk)
  | true =>
      have hc := hcb
      simp only [Bool.and_eq_true, Bool.not_eq_true', beq_iff_eq,
        List.length_eq_zero] at hc
      obtain ⟨⟨hsb, hgpt⟩, hempty⟩ := hc
      subst hsb
      rcases le_or_lt (boot_size uefi) d.freespace with hb | hb
      · rw [handler_inject uefi d s hgpt hempty hb]
        obtain ⟨h1, h2⟩ := add_user_partition_shape
          { parttype := d.parttype, freespace := d.freespace - boot_size uefi,
            partitions := d.partitions ++ [injected_boot uefi] }
          { s with bytes := s.bytes - boot_size uefi, partnum := 2 }
        refine ⟨h1, ?_, ?_⟩
        · rcases h2 with h | ⟨hsig, _⟩
          · exact Or.inl h
          · exact Or.inr hsig
        · rcases h2 with h | ⟨_, hdisk⟩
          · exact Or.inl h
          · exact Or.inr (Or.inr (by rw [hdisk]))
      · rw [handler_boot_err uefi d s hgpt hempty hb]
        exact ⟨rfl, Or.inr rfl, Or.inr (Or.inl rfl)⟩

/-- C4 amended: whenever the (possibly adjusted) requested size is
negative or exceeds the free space at planning time, planning fails
with an InsufficientSpace error (no silent clamp to zero) and the user
partition is not added; the disk state is unchanged unless a boot
partition was injected earlier in the same call, in which case exactly
that boot partition remains committed. -/
theorem insufficient_space_error (sb uefi : Bool) (d : Disk) (s : PartSpec)
    (h : if (!sb && d.parttype == "gpt" && d.partitions.length == 0) = true then
           boot_size uefi ≤ d.freespace ∧
             (s.bytes < boot_size uefi ∨ d.freespace < s.bytes)
         else s.bytes < 0 ∨ d.freespace < s.bytes) :
    (add_disk_partition_handler sb uefi d s).caught =
      some PlanError.InsufficientSpace ∧
    (add_disk_partition_handler sb uefi d s).signals =
      [Signal.filesystem_add_disk_partition,
       Signal.filesystem_show_disk_partition] ∧
    ((add_disk_partition_handler sb uefi d s).disk = d ∨
      (add_disk_partition_handler sb uefi d s).disk.partitions =
        d.partitions ++ [injected_boot uefi]) := by
  cases hcb : (!sb && d.parttype == "gpt" && d.partitions.length == 0) with
  | false =>
      rw [if_neg (by simp [hcb])] at h
      rw [handler_no_inject sb uefi d s hcb, add_user_partition_err d s h]
      exact ⟨rfl, rfl, Or.inl rfl⟩
  | true =>
      rw [if_pos hcb] at h
      obtain ⟨hbfit, hbad⟩ := h
      have hc := hcb
      simp only [Bool.and_eq_true, Bool.not_eq_true', beq_iff_eq,
        List.length_eq_zero] at hc
      obtain ⟨⟨hsb, hgpt⟩, hempty⟩ := hc
      subst hsb
      rw [handler_inject uefi d s hgpt hempty hbfit]
      rw [add_user_partition_err
        { parttype := d.parttype, freespace := d.freespace - boot_size uefi,
          partitions := d.partitions ++ [injected_boot uefi] }
        { s with bytes := s.bytes - boot_size uefi, partnum := 2 }
        (show s.bytes - boot_size uefi < 0 ∨
            d.freespace - boot_size uefi < s.bytes - boot_size uefi by omega)]
      exact ⟨rfl, rfl, Or.inr rfl⟩

/-- C4 witness: the amended statement applied to a concrete GPT disk
with no partitions in UEFI mode where the adjusted request exceeds the
remaining free space. -/
theorem insufficient_space_error_witness :
    (add_disk_partition_handler false true
        { parttype := "gpt", freespace := 734003200, partitions := [] }
        { partnum := 1, bytes := 838860800, fstype := some "ext4",
          mountpoint := some "/" }).caught =
      some PlanError.InsufficientSpace ∧
    (add_disk_partition_handler false true
        { parttype := "gpt", freespace := 734003200, partitions := [] }
        { partnum := 1, bytes := 838860800, fstype := some "ext4",
          mountpoint := some "/" }).signals =
      [Signal.filesystem_add_disk_partition,
       Signal.filesystem_show_disk_partition] ∧
    ((add_disk_partition_handler false true
        { parttype := "gpt", freespace := 734003200, partitions := [] }
        { partnum := 1, bytes := 838860800, fstype := some "ext4",
          mountpoint := some "/" }).disk =
      { parttype := "gpt", freespace := 734003200, partitions := [] } ∨
      (add_disk_partition_handler false true
        { parttype := "gpt", freespace := 734003200, partitions := [] }
        { partnum := 1, bytes := 838860800, fstype := some "ext4",
          mountpoint := some "/" }).disk.partitions =
      ({ parttype := "gpt", freespace := 734003200,
         partitions := [] } : Disk).partitions ++ [injected_boot true]) :=
  insufficient_space_error false true
    { parttype := "gpt", freespace := 734003200, partitions := [] }
    { partnum := 1, bytes := 838860800, fstype := some "ext4",
      mountpoint := some "/" }
    (by decide)

/-- C5: whenever the system is already bootable, or the disk has at
least one partition, or the table style is not gpt, no boot partition
is injected: the request dictionary is left untouched and the only
possible change to the disk is the user partition itself, appended with
its original number and original size. -/
theorem no_boot_injection (sb uefi : Bool) (d : Disk) (s : PartSpec)
    (h : sb = true ∨ d.parttype ≠ "gpt" ∨ d.partitions ≠ []) :
    (add_disk_partition_handler sb uefi d s).spec = s ∧
    ((add_disk_partition_handler sb uefi d s).disk = d ∨
      (add_disk_partition_handler sb uefi d s).disk.partitions =
        d.partitions ++
          [{ partnum := s.partnum, size := s.bytes, fstype := s.fstype,
             mountpoint :=
               if s.fstype == some "swap" then none else s.mountpoint,
             flag := none }]) := by
  have hcb : (!sb && d.parttype == "gpt" && d.partitions.length == 0) = false := by
    rcases h with h | h | h
    · subst h; rfl
    · have hne : (d.parttype == "gpt") = false := by
        simp [beq_eq_false_iff_ne, h]
      simp [hne]
    · have hne : (d.partitions.length == 0) = false := by
        simp [beq_eq_false_iff_ne, List.length_eq_zero, h]
      simp [hne]
  rw [handler_no_inject sb uefi d s hcb]
  by_cases hu : (s.bytes < 0 ∨ d.freespace < s.bytes)
  · rw [add_user_partition_err d s hu]
    exact ⟨rfl, Or.inl rfl⟩
  · push_neg at hu
    rw [add_user_partition_ok d s hu.1 hu.2]
    exact ⟨rfl, Or.inr rfl⟩

/-- C5 witness: a disk that already has a partition (system not
bootable, gpt) receives no injected boot partition; the user partition
keeps its number and size. -/
theorem no_boot_injection_witness :
    (add_disk_partition_handler false true
        { parttype := "gpt", freespace := 10485760,
          partitions := [{ partnum := 1, size := 1048576,
                           fstype := some "ext4", mountpoint := some "/",
                           flag := none }] }
        { partnum := 5, bytes := 2097152, fstype := some "ext4",
          mountpoint := some "/home" }).spec =
      { partnum := 5, bytes := 2097152, fstype := some "ext4",
        mountpoint := some "/home" } ∧
    ((add_disk_partition_handler false true
        { parttype := "gpt", freespace := 10485760,
          partitions := [{ partnum := 1, size := 1048576,
                           fstype := some "ext4", mountpoint := some "/",
                           flag := none }] }
        { partnum := 5, bytes := 2097152, fstype := some "ext4",
          mountpoint := some "/home" }).disk =
      { parttype := "gpt", freespace := 10485760,
        partitions := [{ partnum := 1, size := 1048576,
                         fstype := some "ext4", mountpoint := some "/",
                         flag := none }] } ∨
      (add_disk_partition_handler false true
        { parttype := "gpt", freespace := 10485760,
          partitions := [{ partnum := 1, size := 1048576,
                           fstype := some "ext4", mountpoint := some "/",
                           flag := none }] }
        { partnum := 5, bytes := 2097152, fstype := some "ext4",
          mountpoint := some "/home" }).disk.partitions =
      ({ parttype := "gpt", freespace := 10485760,
         partitions := [{ partnum := 1, size := 1048576,
                          fstype := some "ext4", mountpoint := some "/",
                          flag := none }] } : Disk).partitions ++
        [{ partnum := 5, size := 2097152, fstype := some "ext4",
           mountpoint :=
             if (some "ext4" : Option String) == some "swap" then none
             else some "/home",
           flag := none }]) :=
  no_boot_injection false true
    { parttype := "gpt", freespace := 10485760,
      partitions := [{ partnum := 1, size := 1048576,
                       fstype := some "ext4", mountpoint := some "/",
                       flag := none }] }
    { partnum := 5, bytes := 2097152, fstype := some "ext4",
      mountpoint := some "/home" }
    (Or.inr (Or.inr (by decide)))

/-- C6: for every request whose filesystem type is swap, every
partition the handler adds (beyond those already on the disk) either is
not a swap partition (the injected boot partition) or carries no mount
point — in particular the emitted user partition has no mount point
even when the request supplies one. -/
theorem swap_partition_no_mountpoint (sb uefi : Bool) (d : Disk) (s : PartSpec)
    (hswap : s.fstype = some "swap") :
    (((add_disk_partition_handler sb uefi d s).disk.partitions.drop
        d.partitions.length).all
      (fun p => !(p.fstype == some "swap") || (p.mountpoint == none))) = true := by
  cases hcb : (!sb && d.parttype == "gpt" && d.partitions.length == 0) with
  | false =>
      rw [handler_no_inject sb uefi d s hcb]
      by_cases hu : (s.bytes < 0 ∨ d.freespace < s.bytes)
      · rw [add_user_partition_err d s hu]
        simp [List.drop_length]
      · push_neg at hu
        rw [add_user_partition_ok d s hu.1 hu.2]
        simp [List.drop_left, hswap]
  | true =>
      have hc := hcb
      simp only [Bool.and_eq_true, Bool.not_eq_true', beq_iff_eq,
        List.length_eq_zero] at hc
      obtain ⟨⟨hsb, hgpt⟩, hempty⟩ := hc
      subst hsb
      rcases le_or_lt (boot_size uefi) d.freespace with hb | hb
      · rw [handler_inject uefi d s hgpt hempty hb]
        by_cases hu : (s.bytes - boot_size uefi < 0 ∨
            d.freespace - boot_size uefi < s.bytes - boot_size uefi)
        · rw [add_user_partition_err
            { parttype := d.parttype, freespace := d.freespace - boot_size uefi,
              partitions := d.partitions ++ [injected_boot uefi] }
            { s with bytes := s.bytes - boot_size uefi, partnum := 2 } hu]
          cases uefi <;> simp [List.drop_left, injected_boot]
        · push_neg at hu
          rw [add_user_partition_ok
            { parttype := d.parttype, freespace := d.freespace - boot_size uefi,
              partitions := d.partitions ++ [injected_boot uefi] }
            { s with bytes := s.bytes - boot_size uefi, partnum := 2 } hu.1 hu.2]
          cases uefi <;>
            simp [List.append_assoc, List.drop_left, injected_boot, hswap]
      · rw [handler_boot_err uefi d s hgpt hempty hb]
        simp [List.drop_length]

/-- C6 witness: a concrete swap request with a supplied mount point on
a GPT disk with no partitions in UEFI mode. -/
theorem swap_partition_no_mountpoint_witness :
    (((add_disk_partition_handler false true
        { parttype := "gpt", freespace := 1073741824, partitions := [] }
        { partnum := 1, bytes := 629145600, fstype := some "swap",
          mountpoint := some "/mnt" }).disk.partitions.drop
      ({ parttype := "gpt", freespace := 1073741824,
         partitions := [] } : Disk).partitions.length).all
      (fun p => !(p.fstype == some "swap") || (p.mountpoint == none))) = true :=
  swap_partition_no_mountpoint false true
    { parttype := "gpt", freespace := 1073741824, partitions := [] }
    { partnum := 1, bytes := 629145600, fstype := some "swap",
      mountpoint := some "/mnt" }
    rfl

/-- C9: when the boot partition is injected, the handler mutates the
caller request dictionary in place: after the call the bytes field is
decreased by the boot partition size, the partnum field is set to 2,
and the remaining fields are untouched, visible to the caller. -/
theorem spec_dict_mutated_in_place (uefi : Bool) (d : Disk) (s : PartSpec)
    (hgpt : d.parttype = "gpt") (hempty : d.partitions = [])
    (hfree : boot_size uefi ≤ d.freespace) :
    (add_disk_partition_handler false uefi d s).spec.bytes =
      s.bytes - boot_size uefi ∧
    (add_disk_partition_handler false uefi d s).spec.partnum = 2 ∧
    (add_disk_partition_handler false uefi d s).spec.fstype = s.fstype ∧
    (add_disk_partition_handler false uefi d s).spec.mountpoint = s.mountpoint := by
  rw [handler_inject uefi d s hgpt hempty hfree]
  rw [add_user_partition_spec]
  exact ⟨rfl, rfl, rfl, rfl⟩

/-- C9 witness: the in-place mutation at a concrete UEFI input. -/
theorem spec_dict_mutated_in_place_witness :
    (add_disk_partition_handler false true
        { parttype := "gpt", freespace := 1073741824, partitions := [] }
        { partnum := 1, bytes := 629145600, fstype := some "ext4",
          mountpoint := some "/" }).spec.bytes = 629145600 - boot_size true ∧
    (add_disk_partition_handler false true
        { parttype := "gpt", freespace := 1073741824, partitions := [] }
        { partnum := 1, bytes := 629145600, fstype := some "ext4",
          mountpoint := some "/" }).spec.partnum = 2 ∧
    (add_disk_partition_handler false true
        { parttype := "gpt", freespace := 1073741824, partitions := [] }
        { partnum := 1, bytes := 629145600, fstype := some "ext4",
          mountpoint := some "/" }).spec.fstype = some "ext4" ∧
    (add_disk_partition_handler false true
        { parttype := "gpt", freespace := 1073741824, partitions := [] }
        { partnum := 1, bytes := 629145600, fstype := some "ext4",
          mountpoint := some "/" }).spec.mountpoint = some "/" :=
  spec_dict_mutated_in_place true
    { parttype := "gpt", freespace := 1073741824, partitions := [] }
    { partnum := 1, bytes := 629145600, fstype := some "ext4",
      mountpoint := some "/" }
    rfl rfl (by decide)

/-- C8: when either curtin write fails with a permission error, the
failure is surfaced as a filesystem-error signal naming the failed
write, it is logged, and the handler stops: the identity-show signal
that starts the next step is never emitted, and when the first write
fails the second is not even attempted. -/
theorem persistence_failure_surfaced (reset ap : Bool) (w2 : WriteOutcome) :
    (filesystem_handler reset ap WriteOutcome.permissionDenied w2).signals.getLast? =
      some (FsSignal.filesystem_error "curtin_write_storage_actions") ∧
    (filesystem_handler reset ap WriteOutcome.permissionDenied w2).attempted =
      ["curtin_write_storage_actions"] ∧
    (filesystem_handler reset ap WriteOutcome.permissionDenied w2).logs =
      ["Failed to write storage actions"] ∧
    ((filesystem_handler reset ap WriteOutcome.permissionDenied w2).signals.contains
      FsSignal.identity_show) = false ∧
    (filesystem_handler reset ap WriteOutcome.ok
        WriteOutcome.permissionDenied).signals.getLast? =
      some (FsSignal.filesystem_error "curtin_write_preserved_actions") ∧
    (filesystem_handler reset ap WriteOutcome.ok
        WriteOutcome.permissionDenied).logs =
      ["Failed to write preserved actions"] ∧
    ((filesystem_handler reset ap WriteOutcome.ok
        WriteOutcome.permissionDenied).signals.contains
      FsSignal.identity_show) = false := by
  cases reset <;> cases ap <;> cases w2 <;> decide

lemma index_of_lt_length (l : List String) (x : String) :
    ∀ i, index_of l x = some i → i < l.length := by
  induction l with
  | nil => intro i h; simp [index_of] at h
  | cons y ys ih =>
      intro i h
      unfold index_of at h
      cases hyv : (y == x) with
      | true =>
          rw [hyv] at h
          simp at h
          subst h
          simp
      | false =>
          rw [hyv] at h
          simp at h
          obtain ⟨j, hj, rfl⟩ := h
          have := ih j hj
          simp
          omega

/-- C7: the disk cursor wraps around: when the current device sits at
index i of the available list, the next cursor returns the element at
(i + 1) mod length and the previous cursor the element at
(i - 1 + length) mod length; when the current device is absent both
fail with NotFound. -/
theorem disk_cursor_wraparound (available : List String) (curr : String) :
    (index_of available curr = none →
      show_disk_information_next available curr =
        Except.error CursorError.NotFound ∧
      show_disk_information_prev available curr =
        Except.error CursorError.NotFound) ∧
    (∀ i, index_of available curr = some i →
      show_disk_information_next available curr =
        Except.ok (available.getD ((i + 1) % available.length) "") ∧
      show_disk_information_prev available curr =
        Except.ok (available.getD
          ((((i : Int) - 1 + (available.length : Int)) %
            (available.length : Int)).toNat) "")) := by
  constructor
  · intro h
    unfold show_disk_information_next show_disk_information_prev
    rw [h]
    exact ⟨rfl, rfl⟩
  · intro i hi
    have hlen : i < available.length := index_of_lt_length available curr i hi
    have hpos : 0 < available.length := lt_of_le_of_lt (Nat.zero_le i) hlen
    constructor
    · unfold show_disk_information_next
      rw [hi]
      have hidx : (i + 1) % available.length < available.length :=
        Nat.mod_lt _ hpos
      show (match available[(i + 1) % available.length]? with
            | some d => Except.ok d
            | none => Except.error CursorError.NotFound) =
          Except.ok (available.getD ((i + 1) % available.length) "")
      rw [List.getElem?_eq_getElem hidx]
      rw [List.getD_eq_getElem?_getD, List.getElem?_eq_getElem hidx]
      rfl
    · unfold show_disk_information_prev
      rw [hi]
      have hnz : (available.length : Int) ≠ 0 := by
        exact_mod_cast Nat.pos_iff_ne_zero.mp hpos
      have hup : ((i : Int) - 1) % (available.length : Int) <
          (available.length : Int) :=
        Int.emod_lt_of_pos _ (by exact_mod_cast hpos)
      have hlow : 0 ≤ ((i : Int) - 1) % (available.length : Int) :=
        Int.emod_nonneg _ hnz
      have hidx : (((i : Int) - 1) % (available.length : Int)).toNat <
          available.length := by omega
      have hsame : (((i : Int) - 1 + (available.length : Int)) %
          (available.length : Int)) = ((i : Int) - 1) % (available.length : Int) :=
        Int.add_emod_self
      show (match available[(((i : Int) - 1) %
              (available.length : Int)).toNat]? with
            | some d => Except.ok d
            | none => Except.error CursorError.NotFound) =
          Except.ok (available.getD
            ((((i : Int) - 1 + (available.length : Int)) %
              (available.length : Int)).toNat) "")
      rw [hsame]
      rw [List.getElem?_eq_getElem hidx]
      rw [List.getD_eq_getElem?_getD, List.getElem?_eq_getElem hidx]
      rfl

/-- C7 witness: with available disks sda, sdb, sdc and current sdc, the
next cursor wraps to sda and the previous cursor yields sdb. -/
theorem disk_cursor_wraparound_witness :
    show_disk_information_next ["sda", "sdb", "sdc"] "sdc" =
      Except.ok "sda" ∧
    show_disk_information_prev ["sda", "sdb", "sdc"] "sdc" =
      Except.ok "sdb" := by
  have h := (disk_cursor_wraparound ["sda", "sdb", "sdc"] "sdc").2 2 (by decide)
  refine ⟨?_, ?_⟩
  · rw [h.1]; exact rfl
  · rw [h.2]; exact rfl

end Subiquity
